import Mathlib

/-!
Verification of the SAR analysis module (`mol_frame/sar.py`).

The module wraps an in-memory molecular table (a `MolFrame`) and at most one
trained classifier.  We embed the rows of the table restricted to the columns
the SAR workflow reads and writes, the classifier as an abstract function
from a structure code to the class-1 probability, Python exceptions as an
`Except` error type, and Python numbers as rationals.

External collaborators (the `MolFrame` class, RDKit, sklearn) are not under
`src/`; where an operation of theirs is needed it is modelled from the spec
and marked as such in its doc comment.
-/

set_option autoImplicit false

namespace Sar

/-- One row of the molecular table, restricted to the columns the SAR code
touches: the structure column (an opaque numeric code standing for the
textual structure encoding), the real activity class `AC_Real`, and the
columns written by prediction: `AC_Pred`, `Prob`, `Confidence`, `Map`.
A missing (NaN) cell is `none`. -/
structure MolRow where
  smiles : Nat
  acReal : Option Nat
  acPred : Option Nat
  prob : Option ℚ
  confidence : Option String
  mapCol : Option String
deriving DecidableEq

/-- Modelled from the spec: the external molecular-table collaborator holds
rows of molecule + metadata and caches which column holds the parseable
structure (`use_col`, set by `find_mol_col`). -/
structure MolFrame where
  rows : List MolRow
  useCol : Option Nat
deriving DecidableEq

/-- Modelled from the spec: `find_mol_col` resolves which column is the
parseable-structure column and caches it on the table.  We model the resolved
column abstractly as index `0`; a table whose cache is already set keeps it. -/
def MolFrame.find_mol_col (m : MolFrame) : MolFrame :=
  match m.useCol with
  | some _ => m
  | none => MolFrame.mk m.rows (some 0)

/-- Modelled from the spec: the collaborator's `copy()` yields an independent
deep copy.  In this value-semantics embedding every write is explicit, so the
copy is the same value; mutation of the caller's table is tracked by
returning the caller's table explicitly from each operation. -/
def MolFrame.copy (m : MolFrame) : MolFrame := m

/-- Modelled from the spec: `mol_method` parses a stored structure value into
a structure object.  Structures are opaque codes here and parsing is the
identity; parse failures are outside the claims treated below. -/
def mol_method (v : Nat) : Nat := v

/-- Python exceptions raised by the SAR code paths under study. -/
inductive DivSite where
  | overall
  | active
  | inactive
deriving DecidableEq

/-- Errors the embedded code can raise: an unguarded `ZeroDivisionError`
(tagged with which division failed), a `LookupError`, an `AttributeError`. -/
inductive SarErr where
  | zeroDivision : DivSite → SarErr
  | lookupError : String → SarErr
  | attributeError : String → SarErr
deriving DecidableEq

/-- The message of the `LookupError` raised by `SAR.predict` without a model. -/
def trainMsg : String := "No suitable model found. Please run `train` first."

/-- The message of the `AttributeError` Python raises when `add_sim_maps`
applies the absent (`None`) model. -/
def attrMsg : String := "NoneType object has no attribute predict_proba"

/-- The `Accuracy` dataclass: confusion counts plus derived rates. -/
structure Accuracy where
  num : Nat
  tp : Nat
  fp : Nat
  tn : Nat
  fn : Nat
  overall : ℚ
  active : ℚ
  inactive : ℚ
  kappa : ℚ
deriving DecidableEq

/-- A row carries both a real and a predicted activity label
(`notna` on `AC_Real` and `AC_Pred`): the filter of `SAR.accuracy`. -/
def bothLabeled (r : MolRow) : Bool := r.acReal.isSome && r.acPred.isSome

/-- `pred` in `SAR.accuracy`: the rows with both labels present. -/
def predRows (rows : List MolRow) : List MolRow := rows.filter bothLabeled

/-- `ctr_pred_act = len(pred[pred["AC_Pred"] == 1])`. -/
def ctr_pred_act (rows : List MolRow) : Nat :=
  ((predRows rows).filter (fun r => decide (r.acPred = some 1))).length

/-- `ctr_pred_inact = len(pred[pred["AC_Pred"] == 0])`. -/
def ctr_pred_inact (rows : List MolRow) : Nat :=
  ((predRows rows).filter (fun r => decide (r.acPred = some 0))).length

/-- `true_pos = len(pred[(AC_Real == 1) & (AC_Pred == 1)])`. -/
def true_pos (rows : List MolRow) : Nat :=
  ((predRows rows).filter (fun r => decide (r.acReal = some 1 ∧ r.acPred = some 1))).length

/-- `true_neg = len(pred[(AC_Real == 0) & (AC_Pred == 0)])`. -/
def true_neg (rows : List MolRow) : Nat :=
  ((predRows rows).filter (fun r => decide (r.acReal = some 0 ∧ r.acPred = some 0))).length

/-- `false_pos = len(pred[(AC_Real == 0) & (AC_Pred == 1)])`. -/
def false_pos (rows : List MolRow) : Nat :=
  ((predRows rows).filter (fun r => decide (r.acReal = some 0 ∧ r.acPred = some 1))).length

/-- `false_neg = len(pred[(AC_Real == 1) & (AC_Pred == 0)])`. -/
def false_neg (rows : List MolRow) : Nat :=
  ((predRows rows).filter (fun r => decide (r.acReal = some 1 ∧ r.acPred = some 0))).length

/-- `ctr_num_pred = true_pos + false_pos + true_neg + false_neg`. -/
def ctr_num_pred (rows : List MolRow) : Nat :=
  true_pos rows + false_pos rows + true_neg rows + false_neg rows

/-- `np.matmul` applied to two 1-D vectors, as in the live `baseline`
computation: the dot product. -/
def matmul (v w : List ℚ) : ℚ := (List.zipWith (fun a b => a * b) v w).sum

/-- `acc = (true_pos + true_neg) / ctr_num_pred`. -/
def acc (rows : List MolRow) : ℚ :=
  ((true_pos rows : ℚ) + (true_neg rows : ℚ)) / (ctr_num_pred rows : ℚ)

/-- The live `baseline` of `SAR.accuracy`:
`np.matmul([tn, fn], [tn, fp]) / n² + np.matmul([fp, tp], [fn, tp]) / n²`. -/
def baseline (rows : List MolRow) : ℚ :=
  matmul [(true_neg rows : ℚ), (false_neg rows : ℚ)]
      [(true_neg rows : ℚ), (false_pos rows : ℚ)]
    / ((ctr_num_pred rows : ℚ) * (ctr_num_pred rows : ℚ))
  + matmul [(false_pos rows : ℚ), (true_pos rows : ℚ)]
      [(false_neg rows : ℚ), (true_pos rows : ℚ)]
    / ((ctr_num_pred rows : ℚ) * (ctr_num_pred rows : ℚ))

/-- `kappa = (acc - baseline) / (1 - baseline)`.  (In Python this division is
a numpy float division that never raises; with `baseline = 1` it yields
nan/inf, here the rational convention `x / 0 = 0` applies — no claim below
touches that corner.) -/
def kappa (rows : List MolRow) : ℚ :=
  (acc rows - baseline rows) / (1 - baseline rows)

/-- `SAR.accuracy` on the rows of the table.  The three integer divisions of
the source are unguarded; in evaluation order Python would raise
`ZeroDivisionError` first at `acc` (total), then at the `active=` argument,
then at `inactive=`, which the three guards reproduce in that order. -/
def accuracy (rows : List MolRow) : Except SarErr Accuracy :=
  if ctr_num_pred rows = 0 then Except.error (SarErr.zeroDivision DivSite.overall)
  else if ctr_pred_act rows = 0 then Except.error (SarErr.zeroDivision DivSite.active)
  else if ctr_pred_inact rows = 0 then Except.error (SarErr.zeroDivision DivSite.inactive)
  else Except.ok (Accuracy.mk (ctr_num_pred rows) (true_pos rows) (false_pos rows)
    (true_neg rows) (false_neg rows) (acc rows)
    ((true_pos rows : ℚ) / (ctr_pred_act rows : ℚ))
    ((true_neg rows : ℚ) / (ctr_pred_inact rows : ℚ))
    (kappa rows))

/-- Round half to even: the rounding of Python 3's built-in `round`. -/
def roundHalfEven (q : ℚ) : ℤ :=
  let f := Int.floor q
  let frac := q - (f : ℚ)
  if frac < 1 / 2 then f
  else if 1 / 2 < frac then f + 1
  else if f % 2 = 0 then f else f + 1

/-- `round(x, 2)` of Python 3 modelled over the rationals: round to the
nearest multiple of 1/100, half to even. -/
def pyRound2 (q : ℚ) : ℚ := ((roundHalfEven (100 * q) : ℤ) : ℚ) / 100

/-- `_predict_mol` inside the module-level `predict`: the classifier is
abstracted to its `predict_proba` class-1 output on a structure code.
`proba = round(predict_prob[0][1], 2)`; then `(1, proba)` if
`proba > threshold`, else `(0, proba)`. -/
def predict_mol (predict_proba : Nat → ℚ) (threshold : ℚ) (mol : Nat) : Nat × ℚ :=
  let proba := pyRound2 (predict_proba mol)
  if proba > threshold then (1, proba) else (0, proba)

/-- The confidence-tier column assignment of the module-level `predict`,
per row: `Confidence` is set to `"Low"` everywhere, then overwritten with
`"Medium"` where `Prob < 0.8*threshold` or `Prob > 1.2*threshold`, then with
`"High"` where `Prob < 0.4*threshold` or `Prob > 1.6*threshold`. -/
def confidence (p threshold : ℚ) : String :=
  let c0 := "Low"
  let c1 := if p < 0.8 * threshold ∨ p > 1.2 * threshold then "Medium" else c0
  let c2 := if p < 0.4 * threshold ∨ p > 1.6 * threshold then "High" else c1
  c2

/-- The per-row effect of the module-level `predict`: `_predict` parses the
structure cell and calls `_predict_mol`; the expanded tuple is written to the
`AC_Pred` and `Prob` columns, and the subsequent column-wise masked
assignments of `Confidence` are equivalent to setting each row's tier from
its own freshly written `Prob`.  All pre-existing cells are kept. -/
def predict_row (predict_proba : Nat → ℚ) (threshold : ℚ) (r : MolRow) : MolRow :=
  let pm := predict_mol predict_proba threshold (mol_method r.smiles)
  MolRow.mk r.smiles r.acReal (some pm.1) (some pm.2)
    (some (confidence pm.2 threshold)) r.mapCol

/-- The module-level `predict(molf, model, threshold)`.  The call
`molf.find_mol_col()` may update the caller's table (its cached structure
column), so the function returns the caller's table after the call as the
first component and the fresh result table (`molf.copy()` with the three
prediction columns written) as the second. -/
def predict (molf : MolFrame) (predict_proba : Nat → ℚ) (threshold : ℚ) :
    MolFrame × MolFrame :=
  let molf1 := molf.find_mol_col
  let result := molf1.copy
  (molf1, MolFrame.mk (result.rows.map (predict_row predict_proba threshold)) result.useCol)

/-- Modelled from the spec: the per-atom contribution map of a row, rendered
as an embedded image.  The PNG payload is abstracted to a string determined
by the model's probability output on the structure code. -/
def map_cell (predict_proba : Nat → ℚ) (code : Nat) : String :=
  "data:image/png;base64," ++ toString (predict_proba code)

/-- `r` with the `Map` column written. -/
def with_map (r : MolRow) (s : String) : MolRow :=
  MolRow.mk r.smiles r.acReal r.acPred r.prob r.confidence (some s)

/-- The module-level `add_sim_maps(molf, model)`.  There is no model check:
the model is whatever the SAR container passes (possibly Python `None`,
embedded as `none`).  With `None`, applying `model.predict_proba` inside
`_map` raises an `AttributeError` on the first row; on an empty table the
column-wise `apply` never calls `_map` and the call succeeds. -/
def add_sim_maps (molf : MolFrame) (model : Option (Nat → ℚ)) :
    Except SarErr MolFrame :=
  let molf1 := molf.find_mol_col
  let result := molf1.copy
  match model with
  | none =>
    if result.rows.isEmpty then Except.ok result
    else Except.error (SarErr.attributeError attrMsg)
  | some f =>
    Except.ok (MolFrame.mk
      (result.rows.map (fun r => with_map r (map_cell f (mol_method r.smiles))))
      result.useCol)

/-- The SAR container: one molecular table and at most one trained model.
The model is abstracted to its `predict_proba` class-1 output. -/
structure SAR where
  molf : MolFrame
  model : Option (Nat → ℚ)

/-- `SAR.copy`: a fresh container around a copy of the table, sharing the
model reference. -/
def SAR.copy (s : SAR) : SAR := SAR.mk s.molf.copy s.model

/-- `SAR.accuracy` reads the container's table. -/
def SAR.accuracy (s : SAR) : Except SarErr Accuracy := Sar.accuracy s.molf.rows

/-- `SAR.predict(threshold)`: raises `LookupError` when no model is present;
otherwise `result = self.copy()` and `result.molf` is replaced by the output
of the module-level `predict` on `self.molf` (which may update the caller's
table cache).  First component of the pair: the caller's container after the
call; second: the returned fresh container. -/
def SAR.predict (s : SAR) (threshold : ℚ) : Except SarErr (SAR × SAR) :=
  match s.model with
  | none => Except.error (SarErr.lookupError trainMsg)
  | some f =>
    let pr := Sar.predict s.molf f threshold
    Except.ok (SAR.mk pr.1 s.model, SAR.mk pr.2 s.model)

/-- `SAR.add_sim_maps`: `result = self.copy()` then
`result.molf = add_sim_maps(self.molf, self.model)` — no model check of its
own; a `None` model flows into the module-level function. -/
def SAR.add_sim_maps (s : SAR) : Except SarErr SAR :=
  match Sar.add_sim_maps s.molf s.model with
  | Except.error e => Except.error e
  | Except.ok res => Except.ok (SAR.mk res s.model)

/-- Outcome of `SAR.load_model`: the container afterwards, whether the
"already a model" warning was printed, whether the file was opened, and
whether an error (`FileNotFoundError`) propagated. -/
structure LoadOutcome where
  state : SAR
  warned : Bool
  fileRead : Bool
  errored : Bool

/-- `SAR.load_model(fn, force)`: if a model is already present and `force`
is not set, print a warning and return, touching nothing; otherwise open the
file — modelled as `file : Option (Nat → ℚ)`, `none` standing for a missing
file whose `FileNotFoundError` propagates — and replace the model. -/
def SAR.load_model (s : SAR) (file : Option (Nat → ℚ)) (force : Bool) : LoadOutcome :=
  if s.model.isSome && !force then LoadOutcome.mk s true false false
  else
    match file with
    | none => LoadOutcome.mk s false true true
    | some f => LoadOutcome.mk (SAR.mk s.molf (some f)) false true false

/-- The baseline exactly as the spec's sentence states it:
`[(tn+fn)(tn+fp) + (fp+tp)(fn+tp)] / total²` (second definition, written
from the spec's words, for comparison against `baseline` from the source). -/
def baselineSpec (tp fp tn fn : Nat) : ℚ :=
  (((tn : ℚ) + (fn : ℚ)) * ((tn : ℚ) + (fp : ℚ))
      + ((fp : ℚ) + (tp : ℚ)) * ((fn : ℚ) + (tp : ℚ)))
    / (((tp : ℚ) + (fp : ℚ) + (tn : ℚ) + (fn : ℚ))
      * ((tp : ℚ) + (fp : ℚ) + (tn : ℚ) + (fn : ℚ)))

/-- Cohen's kappa as the spec states it: `(acc - baseline) / (1 - baseline)`
with `acc = (tp+tn)/total` and the spec's baseline. -/
def kappaSpec (tp fp tn fn : Nat) : ℚ :=
  let accS := ((tp : ℚ) + (tn : ℚ)) / ((tp : ℚ) + (fp : ℚ) + (tn : ℚ) + (fn : ℚ))
  (accS - baselineSpec tp fp tn fn) / (1 - baselineSpec tp fp tn fn)

/-- The nested confidence-tier table as the spec states it: High if
`p < 0.4 t` or `p > 1.6 t`; else Medium if `p < 0.8 t` or `p > 1.2 t`;
else Low — strict inequalities throughout. -/
def confidenceSpec (p threshold : ℚ) : String :=
  if p < 0.4 * threshold ∨ p > 1.6 * threshold then "High"
  else if p < 0.8 * threshold ∨ p > 1.2 * threshold then "Medium"
  else "Low"

/-- A doubly-labeled row with the given real and predicted classes. -/
def rowRP (real pred : Nat) : MolRow :=
  MolRow.mk 0 (some real) (some pred) none none none

/-- A concrete table realizing the confusion counts tp=8, fp=2, tn=7, fn=3. -/
def rows20 : List MolRow :=
  List.replicate 8 (rowRP 1 1) ++ List.replicate 2 (rowRP 0 1)
    ++ List.replicate 7 (rowRP 0 0) ++ List.replicate 3 (rowRP 1 0)

/-- The SAR container holding that table. -/
def sar20 : SAR := SAR.mk (MolFrame.mk rows20 none) none

/-- A container with one row and no trained model. -/
def simSar : SAR := SAR.mk (MolFrame.mk [rowRP 1 1] none) none

/-- A container whose single doubly-labeled row has the non-binary real
class 2 (the label column is categorical; `analyze` even iterates arbitrary
classes). -/
def sarNB : SAR := SAR.mk (MolFrame.mk [rowRP 2 1] none) none

/-- A container with a row that carries a real label but no prediction. -/
def sarNoLabels : SAR :=
  SAR.mk (MolFrame.mk [MolRow.mk 0 (some 1) none none none none] none) none

/-- A container that already holds a model. -/
def loadedSar : SAR := SAR.mk (MolFrame.mk [] none) (some (fun _ => 0))

/- ### Helper lemmas -/

lemma find_mol_col_rows (m : MolFrame) : m.find_mol_col.rows = m.rows := by
  cases m with
  | mk rows useCol => cases useCol <;> rfl

lemma find_mol_col_of_some (m : MolFrame) (c : Nat) (h : m.useCol = some c) :
    m.find_mol_col = m := by
  cases m with
  | mk rows useCol => cases useCol <;> simp_all [MolFrame.find_mol_col]

lemma predict_fst_rows (m : MolFrame) (f : Nat → ℚ) (t : ℚ) :
    (Sar.predict m f t).1.rows = m.rows := by
  simp [Sar.predict, find_mol_col_rows]

lemma predict_snd_rows (m : MolFrame) (f : Nat → ℚ) (t : ℚ) :
    (Sar.predict m f t).2.rows = m.rows.map (predict_row f t) := by
  simp [Sar.predict, MolFrame.copy, find_mol_col_rows]

lemma accuracy_sar20 :
    SAR.accuracy sar20
      = Except.ok (Accuracy.mk 20 8 2 7 3 (3 / 4) (4 / 5) (7 / 10) (7 / 11)) := by
  show Sar.accuracy rows20 = _
  have h1 : ctr_num_pred rows20 = 20 := by decide
  have h2 : ctr_pred_act rows20 = 10 := by decide
  have h3 : ctr_pred_inact rows20 = 10 := by decide
  have htp : true_pos rows20 = 8 := by decide
  have hfp : false_pos rows20 = 2 := by decide
  have htn : true_neg rows20 = 7 := by decide
  have hfn : false_neg rows20 = 3 := by decide
  simp only [Sar.accuracy, Sar.acc, Sar.baseline, Sar.kappa, Sar.matmul,
    h1, h2, h3, htp, hfp, htn, hfn]
  norm_num

lemma predRows_eq_nil (rows : List MolRow) (h : ∀ r ∈ rows, ¬ bothLabeled r = true) :
    predRows rows = [] :=
  List.filter_eq_nil_iff.mpr h

lemma counts_of_predRows_nil (rows : List MolRow) (h : predRows rows = []) :
    ctr_num_pred rows = 0 := by
  simp [ctr_num_pred, true_pos, false_pos, true_neg, false_neg, h]

lemma mem_predRows (rows : List MolRow) (r : MolRow) (hr : r ∈ rows)
    (hb : bothLabeled r = true) : r ∈ predRows rows :=
  List.mem_filter.mpr ⟨hr, hb⟩

lemma ctr_num_pred_ne_zero (rows : List MolRow) (r : MolRow) (hr : r ∈ rows)
    (hreal : r.acReal = some 0 ∨ r.acReal = some 1)
    (hpred : r.acPred = some 0 ∨ r.acPred = some 1) :
    ctr_num_pred rows ≠ 0 := by
  have hb : bothLabeled r = true := by
    rcases hreal with h1 | h1 <;> rcases hpred with h2 | h2 <;>
      simp [bothLabeled, h1, h2]
  have hmem : r ∈ predRows rows := mem_predRows rows r hr hb
  rcases hreal with h1 | h1 <;> rcases hpred with h2 | h2
  · have hm : r ∈ (predRows rows).filter
        (fun r => decide (r.acReal = some 0 ∧ r.acPred = some 0)) :=
      List.mem_filter.mpr ⟨hmem, by simp [h1, h2]⟩
    have hpos := List.length_pos.mpr (List.ne_nil_of_mem hm)
    unfold ctr_num_pred true_pos false_pos true_neg false_neg
    omega
  · have hm : r ∈ (predRows rows).filter
        (fun r => decide (r.acReal = some 0 ∧ r.acPred = some 1)) :=
      List.mem_filter.mpr ⟨hmem, by simp [h1, h2]⟩
    have hpos := List.length_pos.mpr (List.ne_nil_of_mem hm)
    unfold ctr_num_pred true_pos false_pos true_neg false_neg
    omega
  · have hm : r ∈ (predRows rows).filter
        (fun r => decide (r.acReal = some 1 ∧ r.acPred = some 0)) :=
      List.mem_filter.mpr ⟨hmem, by simp [h1, h2]⟩
    have hpos := List.length_pos.mpr (List.ne_nil_of_mem hm)
    unfold ctr_num_pred true_pos false_pos true_neg false_neg
    omega
  · have hm : r ∈ (predRows rows).filter
        (fun r => decide (r.acReal = some 1 ∧ r.acPred = some 1)) :=
      List.mem_filter.mpr ⟨hmem, by simp [h1, h2]⟩
    have hpos := List.length_pos.mpr (List.ne_nil_of_mem hm)
    unfold ctr_num_pred true_pos false_pos true_neg false_neg
    omega

lemma accuracy_ne_overall (rows : List MolRow) (h : ctr_num_pred rows ≠ 0) :
    Sar.accuracy rows ≠ Except.error (SarErr.zeroDivision DivSite.overall) := by
  intro hc
  unfold Sar.accuracy at hc
  rw [if_neg h] at hc
  split at hc <;> try simp_all
  split at hc <;> simp_all

/- ### Claim theorems -/

/-- C1: the spec claims `accuracy()` computes
`kappa = (acc - baseline) / (1 - baseline)` with
`baseline = [(tn+fn)(tn+fp) + (fp+tp)(fn+tp)] / total²`.  On the table with
tp=8, fp=2, tn=7, fn=3 the code returns kappa = 7/11 (its `np.matmul` on two
1-D vectors is a dot product, giving baseline `(tn² + 2·fp·fn + tp²)/total²`
= 5/16), while the spec's formula — which matches the code's own
commented-out implementation and cited reference — gives kappa = 1/2.
The code contradicts its own documentation: a code bug. -/
theorem claim1_kappa_code_bug :
    (SAR.accuracy sar20).toOption.map Accuracy.kappa = some (7 / 11)
    ∧ kappaSpec 8 2 7 3 = 1 / 2
    ∧ ((7 : ℚ) / 11 ≠ 1 / 2) := by
  refine ⟨?_, ?_, by norm_num⟩
  · rw [accuracy_sar20]; rfl
  · norm_num [kappaSpec, baselineSpec]

/-- C2 counterexample: on the table with tp=8, fp=2, tn=7, fn=3 the code's
`inactive` figure is tn/(tn+fn) = 7/10 = 0.7, not the claimed 7/9 ≈ 0.778. -/
theorem claim2_counterexample :
    (SAR.accuracy sar20).toOption.map Accuracy.inactive = some (7 / 10)
    ∧ ((7 : ℚ) / 10 ≠ 7 / 9) := by
  refine ⟨?_, by norm_num⟩
  rw [accuracy_sar20]; rfl

/-- C2 amended: on a table whose doubly-labeled rows give tp=8, fp=2, tn=7,
fn=3 (total=20), `accuracy()` returns overall = 15/20 = 0.75,
active = tp/(tp+fp) = 8/10 = 0.8 and inactive = tn/(tn+fn) = 7/10 = 0.7
(and kappa = 7/11 per the live code, see C1). -/
theorem claim2_accuracy_values :
    SAR.accuracy sar20
      = Except.ok (Accuracy.mk 20 8 2 7 3 (3 / 4) (4 / 5) (7 / 10) (7 / 11)) :=
  accuracy_sar20

/-- C3: for every probability `p` and threshold `t > 0` the confidence tier
written by `predict` equals the nested table of the spec — High if
`p < 0.4 t` or `p > 1.6 t`, else Medium if `p < 0.8 t` or `p > 1.2 t`, else
Low — and each boundary point falls strictly into the less-confident tier. -/
theorem claim3_confidence_tiers (p t : ℚ) (ht : 0 < t) :
    confidence p t = confidenceSpec p t
    ∧ confidence (0.4 * t) t = "Medium"
    ∧ confidence (0.8 * t) t = "Low"
    ∧ confidence (1.2 * t) t = "Low"
    ∧ confidence (1.6 * t) t = "Medium" := by
  refine ⟨rfl, ?_, ?_, ?_, ?_⟩
  · simp only [confidence]
    rw [if_neg (by push_neg; constructor <;> nlinarith),
      if_pos (Or.inl (by nlinarith))]
  · simp only [confidence]
    rw [if_neg (by push_neg; constructor <;> nlinarith),
      if_neg (by push_neg; constructor <;> nlinarith)]
  · simp only [confidence]
    rw [if_neg (by push_neg; constructor <;> nlinarith),
      if_neg (by push_neg; constructor <;> nlinarith)]
  · simp only [confidence]
    rw [if_neg (by push_neg; constructor <;> nlinarith),
      if_pos (Or.inr (by nlinarith))]

/-- C3 witness: the tier theorem applied at p = 1/3, t = 1. -/
theorem claim3_witness :
    (0 : ℚ) < 1
    ∧ (confidence (1 / 3) 1 = confidenceSpec (1 / 3) 1
      ∧ confidence (0.4 * 1) 1 = "Medium"
      ∧ confidence (0.8 * 1) 1 = "Low"
      ∧ confidence (1.2 * 1) 1 = "Low"
      ∧ confidence (1.6 * 1) 1 = "Medium") :=
  ⟨by norm_num, claim3_confidence_tiers (1 / 3) 1 (by norm_num)⟩

/-- C4: every row produced by `predict` with threshold `t` carries the
predicted label `1` exactly when the probability stored in its `Prob` column
is strictly greater than `t` (a probability equal to `t` gives label `0`). -/
theorem claim4_label_iff_prob (m : MolFrame) (f : Nat → ℚ) (t : ℚ) (r : MolRow)
    (hr : r ∈ ((Sar.predict m f t).2).rows) :
    r.acPred = some 1 ↔ ∃ q : ℚ, r.prob = some q ∧ q > t := by
  rw [predict_snd_rows] at hr
  obtain ⟨r0, hr0, rfl⟩ := List.mem_map.mp hr
  simp only [predict_row, predict_mol]
  split <;> rename_i h <;> simp [h]

/-- C4 witness: the label/probability equivalence at a one-row table with
model probability 0.7 and threshold 0.5. -/
theorem claim4_witness :
    (predict_row (fun _ => (7 : ℚ) / 10) (1 / 2) (rowRP 1 1))
        ∈ ((Sar.predict (MolFrame.mk [rowRP 1 1] none) (fun _ => (7 : ℚ) / 10) (1 / 2)).2).rows
    ∧ ((predict_row (fun _ => (7 : ℚ) / 10) (1 / 2) (rowRP 1 1)).acPred = some 1
      ↔ ∃ q : ℚ, (predict_row (fun _ => (7 : ℚ) / 10) (1 / 2) (rowRP 1 1)).prob = some q
          ∧ q > 1 / 2) := by
  have hmem : (predict_row (fun _ => (7 : ℚ) / 10) (1 / 2) (rowRP 1 1))
      ∈ ((Sar.predict (MolFrame.mk [rowRP 1 1] none) (fun _ => (7 : ℚ) / 10) (1 / 2)).2).rows := by
    rw [predict_snd_rows]
    exact List.mem_map_of_mem _ (List.mem_singleton_self _)
  exact ⟨hmem, claim4_label_iff_prob _ _ _ _ hmem⟩

/-- C5 counterexample: on a one-row container with no model,
`add_sim_maps` does not raise the lookup-style error naming `train`: it
propagates the `AttributeError` from applying the absent model. -/
theorem claim5_counterexample :
    SAR.add_sim_maps simSar = Except.error (SarErr.attributeError attrMsg)
    ∧ SarErr.attributeError attrMsg ≠ SarErr.lookupError trainMsg := by
  constructor
  · rfl
  · simp

/-- C5 amended: on every container without a model, `predict` raises the
`LookupError` naming the required prior step `train`; `add_sim_maps`
performs no model check of its own and never raises that lookup-style error
(it succeeds on an empty table, or fails with an `AttributeError` when the
absent model is applied to a row). -/
theorem claim5_no_model (molf : MolFrame) (t : ℚ) :
    SAR.predict (SAR.mk molf none) t = Except.error (SarErr.lookupError trainMsg)
    ∧ ∀ msg : String,
      SAR.add_sim_maps (SAR.mk molf none) ≠ Except.error (SarErr.lookupError msg) := by
  constructor
  · simp [SAR.predict]
  · intro msg hc
    simp only [SAR.add_sim_maps, Sar.add_sim_maps] at hc
    by_cases he : (MolFrame.copy (MolFrame.find_mol_col molf)).rows.isEmpty
    · rw [if_pos he] at hc; simp at hc
    · rw [if_neg he] at hc; simp at hc

/-- C6: `predict` never mutates the caller's data.  The module-level
`predict` leaves the caller's table rows unchanged (and, when the structure
column was already resolved, the whole table value), returns a copy whose
rows are the originals with the three prediction columns `AC_Pred`, `Prob`,
`Confidence` written and every pre-existing field kept; the container's
`predict` returns a fresh session built around that copy, the caller's
session keeping its rows and model. -/
theorem claim6_no_mutation (rows : List MolRow) (c : Nat) (m molf2 : MolFrame)
    (f : Nat → ℚ) (t : ℚ) :
    (Sar.predict m f t).1.rows = m.rows
    ∧ (Sar.predict (MolFrame.mk rows (some c)) f t).1 = MolFrame.mk rows (some c)
    ∧ (Sar.predict m f t).2.rows = m.rows.map (predict_row f t)
    ∧ (∀ r : MolRow, (predict_row f t r).smiles = r.smiles
        ∧ (predict_row f t r).acReal = r.acReal
        ∧ (predict_row f t r).acPred.isSome = true
        ∧ (predict_row f t r).prob.isSome = true
        ∧ (predict_row f t r).confidence.isSome = true)
    ∧ SAR.predict (SAR.mk molf2 (some f)) t
        = Except.ok (SAR.mk (Sar.predict molf2 f t).1 (some f),
            SAR.mk (Sar.predict molf2 f t).2 (some f))
    ∧ (Sar.predict molf2 f t).1.rows = molf2.rows := by
  refine ⟨predict_fst_rows m f t, ?_, predict_snd_rows m f t, ?_, ?_,
    predict_fst_rows molf2 f t⟩
  · simp [Sar.predict, find_mol_col_of_some (MolFrame.mk rows (some c)) c rfl]
  · intro r
    refine ⟨rfl, rfl, ?_, ?_, ?_⟩ <;> simp [predict_row]
  · simp [SAR.predict]

/-- C7: calling `load_model` with `force` unset on a container that already
holds a model is a no-op: the container is returned unchanged, the
"already a model" warning is printed, the file is not opened and no error is
raised. -/
theorem claim7_load_model_noop (molf : MolFrame) (f0 : Nat → ℚ)
    (file : Option (Nat → ℚ)) :
    SAR.load_model (SAR.mk molf (some f0)) file false
      = LoadOutcome.mk (SAR.mk molf (some f0)) true false false := by
  simp [SAR.load_model]

/-- C8 counterexample: a table whose single row has both labels present but
the non-binary real class 2 defeats the second half of the claim: the row is
doubly labeled, yet all four confusion counts are 0 and `accuracy()` still
fails with the division by zero at the overall-accuracy division. -/
theorem claim8_counterexample :
    bothLabeled (rowRP 2 1) = true
    ∧ SAR.accuracy sarNB = Except.error (SarErr.zeroDivision DivSite.overall) := by
  constructor
  · decide
  · rfl

/-- C8 amended: when no row has both labels present, `accuracy()` fails with
the unguarded division by zero at the overall-accuracy division; and for
every table with at least one row whose two labels are present *with binary
values 0/1*, that particular failure cannot occur. -/
theorem claim8_overall_divzero (s : SAR) :
    ((∀ r ∈ s.molf.rows, ¬ bothLabeled r = true) →
      SAR.accuracy s = Except.error (SarErr.zeroDivision DivSite.overall))
    ∧ ((∃ r ∈ s.molf.rows, (r.acReal = some 0 ∨ r.acReal = some 1)
          ∧ (r.acPred = some 0 ∨ r.acPred = some 1)) →
      SAR.accuracy s ≠ Except.error (SarErr.zeroDivision DivSite.overall)) := by
  constructor
  · intro h
    have h0 : ctr_num_pred s.molf.rows = 0 :=
      counts_of_predRows_nil _ (predRows_eq_nil _ h)
    show Sar.accuracy s.molf.rows = _
    unfold Sar.accuracy
    rw [if_pos h0]
  · rintro ⟨r, hr, hreal, hpred⟩
    exact accuracy_ne_overall _ (ctr_num_pred_ne_zero _ r hr hreal hpred)

/-- C8 witness: both halves of the amended claim at concrete tables — a
table whose only row lacks a prediction, and the 20-row confusion table. -/
theorem claim8_witness :
    (∀ r ∈ sarNoLabels.molf.rows, ¬ bothLabeled r = true)
    ∧ SAR.accuracy sarNoLabels = Except.error (SarErr.zeroDivision DivSite.overall)
    ∧ (∃ r ∈ sar20.molf.rows, (r.acReal = some 0 ∨ r.acReal = some 1)
        ∧ (r.acPred = some 0 ∨ r.acPred = some 1))
    ∧ SAR.accuracy sar20 ≠ Except.error (SarErr.zeroDivision DivSite.overall) :=
  ⟨by decide, (claim8_overall_divzero sarNoLabels).1 (by decide),
    by decide, (claim8_overall_divzero sar20).2 (by decide)⟩

/-- C9: `accuracy()` divides the true-positive count by the number of
predicted-active rows and the true-negative count by the number of
predicted-inactive rows; whenever every doubly-labeled row carries the same
predicted class, one of its unguarded divisions is a division by zero even
though doubly-labeled rows exist. -/
theorem claim9_same_class_divzero (s : SAR)
    (_hex : ∃ r ∈ s.molf.rows, bothLabeled r = true)
    (hsame : (∀ r ∈ s.molf.rows, bothLabeled r = true → r.acPred = some 1)
      ∨ (∀ r ∈ s.molf.rows, bothLabeled r = true → r.acPred = some 0)) :
    ∃ site : DivSite, SAR.accuracy s = Except.error (SarErr.zeroDivision site) := by
  show ∃ site, Sar.accuracy s.molf.rows = Except.error (SarErr.zeroDivision site)
  set rows := s.molf.rows with hrows
  rcases hsame with hall | hall
  · have hinact : ctr_pred_inact rows = 0 := by
      unfold ctr_pred_inact
      rw [List.filter_eq_nil_iff.mpr ?_]
      · rfl
      · intro r hrm
        have hm := List.mem_filter.mp hrm
        have h1 := hall r hm.1 hm.2
        simp [h1]
    unfold Sar.accuracy
    by_cases h0 : ctr_num_pred rows = 0
    · exact ⟨DivSite.overall, by rw [if_pos h0]⟩
    · by_cases ha : ctr_pred_act rows = 0
      · exact ⟨DivSite.active, by rw [if_neg h0, if_pos ha]⟩
      · exact ⟨DivSite.inactive, by rw [if_neg h0, if_neg ha, if_pos hinact]⟩
  · have hact : ctr_pred_act rows = 0 := by
      unfold ctr_pred_act
      rw [List.filter_eq_nil_iff.mpr ?_]
      · rfl
      · intro r hrm
        have hm := List.mem_filter.mp hrm
        have h1 := hall r hm.1 hm.2
        simp [h1]
    unfold Sar.accuracy
    by_cases h0 : ctr_num_pred rows = 0
    · exact ⟨DivSite.overall, by rw [if_pos h0]⟩
    · exact ⟨DivSite.active, by rw [if_neg h0, if_pos hact]⟩

/-- C9 witness: a table whose single doubly-labeled row is predicted active
makes `accuracy()` hit an unguarded zero division. -/
theorem claim9_witness :
    (∃ r ∈ simSar.molf.rows, bothLabeled r = true)
    ∧ (∀ r ∈ simSar.molf.rows, bothLabeled r = true → r.acPred = some 1)
    ∧ ∃ site : DivSite,
        SAR.accuracy simSar = Except.error (SarErr.zeroDivision site) :=
  ⟨by decide, by decide,
    claim9_same_class_divzero simSar (by decide) (Or.inl (by decide))⟩

/-- C10: `predict` stores the model's class probability rounded to two
decimals in `Prob`, and both the predicted label and the confidence tier are
functions of that rounded value: two models whose raw probabilities round
alike produce identical output rows. -/
theorem claim10_rounded_prob (f g : Nat → ℚ) (t : ℚ) (r : MolRow)
    (h : pyRound2 (f (mol_method r.smiles)) = pyRound2 (g (mol_method r.smiles))) :
    predict_row f t r = predict_row g t r
    ∧ (predict_row f t r).prob = some (pyRound2 (f (mol_method r.smiles)))
    ∧ (predict_row f t r).acPred
        = some (if pyRound2 (f (mol_method r.smiles)) > t then 1 else 0)
    ∧ (predict_row f t r).confidence
        = some (confidence (pyRound2 (f (mol_method r.smiles))) t) := by
  refine ⟨?_, ?_, ?_, ?_⟩ <;>
    simp only [predict_row, predict_mol, h] <;> split <;> simp_all

/-- C10 witness: raw probabilities 0.504 and 0.5 both round to 0.5, so with
threshold 0.5 they yield the same row — label 0 although the raw 0.504
exceeds the threshold. -/
theorem claim10_witness :
    pyRound2 ((fun _ => (63 : ℚ) / 125) (mol_method (rowRP 1 1).smiles))
      = pyRound2 ((fun _ => (1 : ℚ) / 2) (mol_method (rowRP 1 1).smiles))
    ∧ (predict_row (fun _ => (63 : ℚ) / 125) (1 / 2) (rowRP 1 1)
        = predict_row (fun _ => (1 : ℚ) / 2) (1 / 2) (rowRP 1 1)
      ∧ (predict_row (fun _ => (63 : ℚ) / 125) (1 / 2) (rowRP 1 1)).prob
          = some (pyRound2 ((fun _ => (63 : ℚ) / 125) (mol_method (rowRP 1 1).smiles)))
      ∧ (predict_row (fun _ => (63 : ℚ) / 125) (1 / 2) (rowRP 1 1)).acPred
          = some (if pyRound2 ((fun _ => (63 : ℚ) / 125) (mol_method (rowRP 1 1).smiles)) > 1 / 2
              then 1 else 0)
      ∧ (predict_row (fun _ => (63 : ℚ) / 125) (1 / 2) (rowRP 1 1)).confidence
          = some (confidence
              (pyRound2 ((fun _ => (63 : ℚ) / 125) (mol_method (rowRP 1 1).smiles))) (1 / 2))) := by
  have h : pyRound2 ((fun _ => (63 : ℚ) / 125) (mol_method (rowRP 1 1).smiles))
      = pyRound2 ((fun _ => (1 : ℚ) / 2) (mol_method (rowRP 1 1).smiles)) := by
    show pyRound2 ((63 : ℚ) / 125) = pyRound2 ((1 : ℚ) / 2)
    norm_num [pyRound2, roundHalfEven]
  exact ⟨h, claim10_rounded_prob _ _ _ _ h⟩

end Sar

